import Mathlib

/-!
Verification of the sqsworker core (worker.go): a concurrent SQS consumer
with one producer loop, a pool of consumer loops, a per message timeout
guard around the user supplied handler, and a forward then acknowledge step
on success. The Go code is embedded shallowly: every external call
(SendMessage, DeleteMessage, the receive request, the handler itself) takes
its outcome as a parameter, and each loop body is a function from those
outcomes to the ordered trace of observable calls it makes.
-/

namespace Sqsworker

/-- Constant DefaultTimeout of worker.go, in seconds. -/
def DefaultTimeout : Int := 30

/-- Constant DefaultWorkers of worker.go. -/
def DefaultWorkers : Int := 1

/-- Constant MaxNumberOfMessages of worker.go. -/
def MaxNumberOfMessages : Int := 1

/-- Constant VisibilityTimeout of worker.go, in seconds. -/
def VisibilityTimeout : Int := 60

/-- Constant WaitTimeSeconds of worker.go, in seconds. -/
def WaitTimeSeconds : Int := 20

/-- Value of time.Second: nanoseconds in one second, since a time.Duration
counts nanoseconds. -/
def second : Int := 1000000000

/-- Model of sqs.Message: the body and the receipt handle that is later used
to delete the message. -/
structure Message where
  body : String
  receiptHandle : String
deriving DecidableEq

/-- Errors seen by the worker: the distinguished HandlerTimeout value of
worker.go, or any other error value, identified by its message string. -/
inductive WErr where
  | handlerTimeout
  | other (msg : String)
deriving DecidableEq

/-- Message of an error: the Error method of HandlerTimeout returns the
fixed string of worker.go. -/
def WErr.message : WErr → String
  | WErr.handlerTimeout => "Handler Timeout!"
  | WErr.other m => m

/-- Model of the Worker struct. The Callback field is replaced by a presence
flag, because the code only compares it against nil before calling it; the
AWS client and session fields are left out because every call through them
takes its outcome as a parameter; the done channel is modelled by its closed
flag. -/
structure Worker where
  queueInUrl : String
  queueOutUrl : String
  consumers : Int
  name : String
  timeout : Int
  hasCallback : Bool
  doneClosed : Bool

/-- Model of the WorkerConfig struct, with the Callback and Logger fields
replaced by presence flags as in Worker. -/
structure WorkerConfig where
  queueIn : String
  queueOut : String
  workers : Int
  region : String
  hasCallback : Bool
  name : String
  timeout : Int

/-- Model of NewWorker: the result of runtime.NumCPU() is the numCPU
parameter, the Timeout field defaults to DefaultTimeout when zero and is
multiplied by time.Second, the Workers field defaults to numCPU when
zero, and the done channel starts open. -/
def NewWorker (numCPU : Int) (wc : WorkerConfig) : Worker :=
  let timeout := if wc.timeout = 0 then DefaultTimeout else wc.timeout
  let workers := if wc.workers ≠ 0 then wc.workers else numCPU
  { queueInUrl := wc.queueIn
    queueOutUrl := wc.queueOut
    consumers := workers
    name := wc.name
    timeout := timeout * second
    hasCallback := wc.hasCallback
    doneClosed := false }

/-- Go builtin close applied to a channel whose closed flag is given:
closing an already closed channel panics at run time, modelled as none. -/
def chanClose (closed : Bool) : Option Bool :=
  if closed then none else some true

/-- Model of the Close method of Worker, which runs close on the done
channel; none models a run time panic. -/
def Worker.Close (w : Worker) : Option Worker :=
  (chanClose w.doneClosed).map (fun _ => { w with doneClosed := true })

/-- Observable calls recorded while the producer and consumer loops run. -/
inductive Event where
  | callback (result : String) (err : Option WErr)
  | sendMessage (body : String)
  | deleteMessage (receiptHandle : String)
  | logError (msg : String)
  | push (m : Message)
  | producerReturn
deriving DecidableEq

/-- Test for a sendMessage event. -/
def Event.isSend : Event → Bool
  | Event.sendMessage _ => true
  | _ => false

/-- Test for a deleteMessage event. -/
def Event.isDelete : Event → Bool
  | Event.deleteMessage _ => true
  | _ => false

/-- Test for a callback event. -/
def Event.isCallback : Event → Bool
  | Event.callback _ _ => true
  | _ => false

/-- Test for a push event. -/
def Event.isPush : Event → Bool
  | Event.push _ => true
  | _ => false

/-- Model of the sendMessage method of Worker: when QueueOutUrl is empty it
returns nil without calling SendMessage; otherwise it calls SendMessage,
whose outcome is the external parameter sendResult. The first component
records the calls made. -/
def sendMessageRun (w : Worker) (body : String) (sendResult : Option WErr) :
    List Event × Option WErr :=
  if w.queueOutUrl = "" then ([], none)
  else ([Event.sendMessage body], sendResult)

/-- Model of the deleteMessage method of Worker: it calls DeleteMessage,
whose outcome is the external parameter deleteResult, and returns that
error. -/
def deleteMessageRun (receiptHandle : String) (deleteResult : Option WErr) :
    List Event × Option WErr :=
  ([Event.deleteMessage receiptHandle], deleteResult)

/-- Body of the message case of the consumer loop of worker.go, for one
message: given the outcome pair of Exec, the outcomes of the external
SendMessage and DeleteMessage calls, and the message, it returns the trace
of observable calls in program order. -/
def processMessage (w : Worker) (outcome : String × Option WErr)
    (sendResult deleteResult : Option WErr) (msg : Message) : List Event :=
  let cb := if w.hasCallback then [Event.callback outcome.1 outcome.2] else []
  match outcome.2 with
  | some _ => cb ++ [Event.logError "handler failed!"]
  | none =>
    let s := sendMessageRun w outcome.1 sendResult
    match s.2 with
    | some _ => cb ++ s.1 ++ [Event.logError "send message failed!"]
    | none =>
      let d := deleteMessageRun msg.receiptHandle deleteResult
      match d.2 with
      | some _ => cb ++ s.1 ++ d.1 ++ [Event.logError "delete message failed!"]
      | none => cb ++ s.1 ++ d.1

/-- Result of sending one receive message request: a batch of messages or an
error. -/
inductive FetchResult where
  | ok (msgs : List Message)
  | fetchErr (msg : String)
deriving DecidableEq

/-- One iteration of the select in the producer loop: either the context is
done and the producer returns, or the default branch runs and the receive
request completes with the given result. -/
inductive ProducerStep where
  | cancelled
  | fetch (r : FetchResult)
deriving DecidableEq

/-- Model of the producer method of Worker: the loop, driven by a schedule
of iteration outcomes. Returning is recorded as the producerReturn event;
sends on the out channel are recorded as push events; a fetch error is
logged and the loop continues. -/
def producerRun : List ProducerStep → List Event
  | [] => []
  | ProducerStep.cancelled :: _ => [Event.producerReturn]
  | ProducerStep.fetch (FetchResult.fetchErr _) :: rest =>
    Event.logError "recieve messages failed!" :: producerRun rest
  | ProducerStep.fetch (FetchResult.ok msgs) :: rest =>
    msgs.map Event.push ++ producerRun rest

/-- Number of fetch error iterations in a producer schedule. -/
def countFetchErrors : List ProducerStep → Nat
  | [] => 0
  | ProducerStep.fetch (FetchResult.fetchErr _) :: rest => countFetchErrors rest + 1
  | _ :: rest => countFetchErrors rest

/-- Number of fetch error log events in a trace. -/
def countFetchErrorLogs (tr : List Event) : Nat :=
  tr.countP (fun ev => decide (ev = Event.logError "recieve messages failed!"))

/-- Model of the sqs.ReceiveMessageInput value built once by the producer. -/
structure ReceiveMessageInput where
  queueUrl : String
  maxNumberOfMessages : Int
  visibilityTimeout : Int
  waitTimeSeconds : Int
deriving DecidableEq

/-- Parameters of every receive request issued by the producer of
worker.go. -/
def producerParams (w : Worker) : ReceiveMessageInput :=
  { queueUrl := w.queueInUrl
    maxNumberOfMessages := MaxNumberOfMessages
    visibilityTimeout := VisibilityTimeout
    waitTimeSeconds := WaitTimeSeconds }

/-- State of the time.Timer reused by one consumer: running means the timer
is active and a Stop call returns true; firedFull means the timer expired
and its fire value still sits in the buffered channel, so Stop returns false
and one receive succeeds; firedDrained means the timer expired and the value
was already received by the select of an earlier Exec call, so Stop returns
false and any further receive on the channel blocks forever. -/
inductive TimerState where
  | running
  | firedFull
  | firedDrained
deriving DecidableEq

/-- Model of the handlerParams struct of worker.go: the state of the reused
timer, whether a handler goroutine from an earlier Exec call is still
blocked sending on the unbuffered Done channel, and the current contents of
the shared Result record that every handler goroutine of this consumer
writes into. -/
structure handlerParams where
  timer : TimerState
  staleSender : Bool
  resultContents : String × Option WErr
deriving DecidableEq

/-- Model of the getHandlerParams method of Worker: a fresh running timer,
an empty unbuffered Done channel, and a zero valued consumerDone record. -/
def getHandlerParams : handlerParams :=
  { timer := TimerState.running
    staleSender := false
    resultContents := ("", none) }

/-- Behavior of one handler invocation: fast means the handler completes
with the given outcome before the timer fires; slow means the timer fires
first and the handler finishes afterwards with the given outcome. -/
inductive HandlerBehavior where
  | fast (result : String) (err : Option WErr)
  | slow (result : String) (err : Option WErr)
deriving DecidableEq

/-- Outcome eventually produced by the handler invocation. -/
def HandlerBehavior.outcome : HandlerBehavior → String × Option WErr
  | HandlerBehavior.fast r e => (r, e)
  | HandlerBehavior.slow r e => (r, e)

/-- Model of the Stop and drain sequence at the top of Exec, worker.go lines
111 to 113: when the timer is running, Stop succeeds and the drain is
skipped; when the timer expired with its value still buffered, Stop returns
false and the drain receives the buffered value; when the timer expired and
its channel was already drained by an earlier select, Stop returns false and
the drain blocks forever, modelled as none. -/
def timerStopDrain : TimerState → Option Unit
  | TimerState.running => some ()
  | TimerState.firedFull => some ()
  | TimerState.firedDrained => none

/-- Model of the Exec method of Worker for one message, under the schedule
in which the select runs before the newly spawned handler goroutine
finishes. Exec stops and drains the timer, resets it, spawns a goroutine
that runs the handler, writes its outcome into the shared Result record and
sends that record on the unbuffered Done channel, then selects between the
Done channel and the timer channel. When a goroutine of an earlier
invocation is still blocked sending on Done, that send is the only ready
case and the select receives the shared record with the late outcome the
earlier goroutine wrote. Returning none models the consumer goroutine
blocking forever. -/
def Exec (hp : handlerParams) (b : HandlerBehavior) :
    Option ((String × Option WErr) × handlerParams) :=
  match timerStopDrain hp.timer with
  | none => none
  | some _ =>
    if hp.staleSender then
      some (hp.resultContents,
        { timer := TimerState.running
          staleSender := true
          resultContents := b.outcome })
    else
      match b with
      | HandlerBehavior.fast r e =>
        some ((r, e),
          { timer := TimerState.running
            staleSender := false
            resultContents := (r, e) })
      | HandlerBehavior.slow r e =>
        some (("", some WErr.handlerTimeout),
          { timer := TimerState.firedDrained
            staleSender := true
            resultContents := (r, e) })

/-- Sample configuration used by the concrete witnesses. -/
def sampleConfig : WorkerConfig :=
  { queueIn := "in"
    queueOut := "out"
    workers := 0
    region := "us-east-1"
    hasCallback := true
    name := "TestApp"
    timeout := 0 }

/-- Sample configuration with a nonzero timeout. -/
def sampleConfig7 : WorkerConfig :=
  { sampleConfig with timeout := 7 }

/-- Sample worker built by NewWorker on a machine with four CPUs. -/
def sampleWorker : Worker := NewWorker 4 sampleConfig

/-- Sample message. -/
def sampleMessage : Message := { body := "a", receiptHandle := "T1" }

/-- Sample producer schedule: two fetch errors around one successful fetch,
without a cancellation. -/
def sampleSteps : List ProducerStep :=
  [ProducerStep.fetch (FetchResult.fetchErr "conn reset"),
   ProducerStep.fetch (FetchResult.ok [sampleMessage]),
   ProducerStep.fetch (FetchResult.fetchErr "throttled")]

/-- Shape of the consumer trace for one message: an optional callback event
followed by one of the six possible tails, depending on the handler outcome,
the emptiness of QueueOutUrl, and the outcomes of the two AWS calls. -/
theorem processMessage_eq (w : Worker) (res : String) (e : Option WErr)
    (sendResult deleteResult : Option WErr) (msg : Message) :
    processMessage w (res, e) sendResult deleteResult msg =
      (if w.hasCallback then [Event.callback res e] else []) ++
        match e with
        | some _ => [Event.logError "handler failed!"]
        | none =>
          if w.queueOutUrl = "" then
            match deleteResult with
            | some _ => [Event.deleteMessage msg.receiptHandle,
                Event.logError "delete message failed!"]
            | none => [Event.deleteMessage msg.receiptHandle]
          else
            match sendResult with
            | some _ => [Event.sendMessage res, Event.logError "send message failed!"]
            | none =>
              match deleteResult with
              | some _ => [Event.sendMessage res, Event.deleteMessage msg.receiptHandle,
                  Event.logError "delete message failed!"]
              | none => [Event.sendMessage res, Event.deleteMessage msg.receiptHandle] := by
  cases e <;> by_cases hq : w.queueOutUrl = "" <;>
    cases sendResult <;> cases deleteResult <;>
      simp [processMessage, sendMessageRun, deleteMessageRun, hq]

/-- Claim C1: in the trace of one consumer iteration, a DeleteMessage call
for the message token occurs only when the handler returned no error, and
only after the SendMessage call unless forwarding was a no op because
QueueOutUrl is empty; no SendMessage call ever follows the DeleteMessage
call. -/
theorem forward_before_acknowledge (w : Worker) (res : String) (e : Option WErr)
    (sendResult deleteResult : Option WErr) (msg : Message)
    (h : Event.deleteMessage msg.receiptHandle ∈
      processMessage w (res, e) sendResult deleteResult msg) :
    e = none ∧
      (w.queueOutUrl = "" ∨
        ∃ l1 l2,
          processMessage w (res, e) sendResult deleteResult msg =
            l1 ++ Event.sendMessage res :: l2 ∧
          Event.deleteMessage msg.receiptHandle ∈ l2 ∧
          l2.countP Event.isSend = 0) := by
  rw [processMessage_eq] at h ⊢
  cases e with
  | some err =>
    exfalso
    by_cases hcb : w.hasCallback <;> simp [hcb] at h
  | none =>
    refine ⟨rfl, ?_⟩
    by_cases hq : w.queueOutUrl = ""
    · exact Or.inl hq
    · refine Or.inr ?_
      cases sendResult with
      | some serr =>
        exfalso
        by_cases hcb : w.hasCallback <;> simp [hcb, hq] at h
      | none =>
        cases deleteResult with
        | some derr =>
          refine ⟨if w.hasCallback then [Event.callback res none] else [],
            [Event.deleteMessage msg.receiptHandle,
              Event.logError "delete message failed!"], ?_, ?_, ?_⟩
          · simp [hq]
          · simp
          · simp [Event.isSend]
        | none =>
          refine ⟨if w.hasCallback then [Event.callback res none] else [],
            [Event.deleteMessage msg.receiptHandle], ?_, ?_, ?_⟩
          · simp [hq]
          · simp
          · simp [Event.isSend]

/-- Witness for claim C1 at a concrete successful message on the sample
worker, whose sink is configured. -/
theorem forward_before_acknowledge_witness :
    (Event.deleteMessage sampleMessage.receiptHandle ∈
        processMessage sampleWorker ("A", none) none none sampleMessage) ∧
      (none : Option WErr) = none ∧
        (sampleWorker.queueOutUrl = "" ∨
          ∃ l1 l2,
            processMessage sampleWorker ("A", none) none none sampleMessage =
              l1 ++ Event.sendMessage "A" :: l2 ∧
            Event.deleteMessage sampleMessage.receiptHandle ∈ l2 ∧
            l2.countP Event.isSend = 0) :=
  ⟨by decide,
    forward_before_acknowledge sampleWorker "A" none none none sampleMessage
      (by decide)⟩

/-- Claim C2: after a handler exceeds the timeout, Exec does return the
distinguished HandlerTimeout error, but the very next Exec call of the same
consumer blocks forever: Stop on the expired timer returns false and the
drain receives on a channel that the select of the previous call already
drained, so the consumer never reaches another select and deadlocks. -/
theorem exec_timeout_then_next_call_blocks (r : String) (e : Option WErr)
    (b : HandlerBehavior) :
    ∃ hp1,
      Exec getHandlerParams (HandlerBehavior.slow r e) =
        some (("", some WErr.handlerTimeout), hp1) ∧
      Exec hp1 b = none :=
  ⟨{ timer := TimerState.firedDrained
     staleSender := true
     resultContents := (r, e) }, rfl, rfl⟩

/-- Claim C3: when the handler returns an error, including the timeout
error, the consumer logs the handler failure and makes neither a
DeleteMessage nor a SendMessage call for that message. -/
theorem handler_error_no_acknowledge (w : Worker) (res : String) (err : WErr)
    (sendResult deleteResult : Option WErr) (msg : Message) :
    (processMessage w (res, some err) sendResult deleteResult msg).countP
        Event.isDelete = 0 ∧
      (processMessage w (res, some err) sendResult deleteResult msg).countP
        Event.isSend = 0 ∧
      Event.logError "handler failed!" ∈
        processMessage w (res, some err) sendResult deleteResult msg := by
  rw [processMessage_eq]
  by_cases hcb : w.hasCallback <;>
    simp [hcb, Event.isDelete, Event.isSend, Event.isCallback]

/-- Claim C4: when the sink is configured and the SendMessage call fails,
the consumer logs the send failure and never makes a DeleteMessage call for
that message. -/
theorem forward_error_no_acknowledge (w : Worker) (res : String) (err : WErr)
    (deleteResult : Option WErr) (msg : Message) (h : w.queueOutUrl ≠ "") :
    (processMessage w (res, none) (some err) deleteResult msg).countP
        Event.isDelete = 0 ∧
      Event.logError "send message failed!" ∈
        processMessage w (res, none) (some err) deleteResult msg := by
  rw [processMessage_eq]
  by_cases hcb : w.hasCallback <;>
    simp [hcb, h, Event.isDelete]

/-- Witness for claim C4 on the sample worker, whose QueueOutUrl is the
nonempty string out. -/
theorem forward_error_no_acknowledge_witness :
    (processMessage sampleWorker ("A", none) (some (WErr.other "boom")) none
        sampleMessage).countP Event.isDelete = 0 ∧
      Event.logError "send message failed!" ∈
        processMessage sampleWorker ("A", none) (some (WErr.other "boom")) none
          sampleMessage :=
  forward_error_no_acknowledge sampleWorker "A" (WErr.other "boom") none
    sampleMessage (by decide)

/-- Claim C5 counterexample: calling Close twice on a freshly constructed
worker reaches the Go panic from closing an already closed channel, refuting
the claim that a double Close must not panic. -/
theorem close_twice_counterexample :
    (Worker.Close sampleWorker).bind Worker.Close = none := rfl

/-- Claim C5 amended: the first Close on a worker built by NewWorker
succeeds, and the second Close on the resulting worker panics, because Close
runs the Go builtin close on the already closed done channel; Close may be
called at most once. -/
theorem close_once_ok_twice_panics (numCPU : Int) (wc : WorkerConfig) :
    ∃ w1, Worker.Close (NewWorker numCPU wc) = some w1 ∧
      Worker.Close w1 = none :=
  ⟨{ NewWorker numCPU wc with doneClosed := true }, rfl, rfl⟩

/-- Claim C6: NewWorker applies the documented defaults: the consumer count
is numCPU when the Workers field is zero and the Workers field otherwise,
and the timeout is DefaultTimeout seconds when the Timeout field is zero and
Timeout seconds otherwise. -/
theorem newWorker_defaults (numCPU : Int) (wc : WorkerConfig) :
    (NewWorker numCPU wc).consumers =
        (if wc.workers = 0 then numCPU else wc.workers) ∧
      (NewWorker numCPU wc).timeout =
        (if wc.timeout = 0 then DefaultTimeout else wc.timeout) * second := by
  by_cases h : wc.workers = 0 <;> simp [NewWorker, h]

/-- Push events carry no producerReturn event. -/
theorem producerReturn_not_mem_map_push (msgs : List Message) :
    Event.producerReturn ∉ msgs.map Event.push := by
  simp [List.mem_map]

/-- Push events contribute no fetch error logs. -/
theorem countFetchErrorLogs_map_push (msgs : List Message) (tr : List Event) :
    countFetchErrorLogs (msgs.map Event.push ++ tr) = countFetchErrorLogs tr := by
  induction msgs with
  | nil => simp
  | cons m ms ih =>
    simp [countFetchErrorLogs, List.countP_cons] at ih ⊢

/-- Claim C7: a producer schedule without a cancellation never makes the
producer return, and every fetch error in it is logged, one log event per
error; the producer loop is only left through the cancellation branch. -/
theorem producer_never_stops_on_fetch_error (steps : List ProducerStep)
    (h : ProducerStep.cancelled ∉ steps) :
    Event.producerReturn ∉ producerRun steps ∧
      countFetchErrorLogs (producerRun steps) = countFetchErrors steps := by
  induction steps with
  | nil => simp [producerRun, countFetchErrors, countFetchErrorLogs]
  | cons s rest ih =>
    rw [List.mem_cons] at h
    push_neg at h
    obtain ⟨h1, h2⟩ := h
    obtain ⟨ih1, ih2⟩ := ih h2
    cases s with
    | cancelled => exact absurd rfl h1
    | fetch r =>
      cases r with
      | ok msgs =>
        refine ⟨?_, ?_⟩
        · intro hmem
          rcases List.mem_append.mp hmem with hmem | hmem
          · exact producerReturn_not_mem_map_push msgs hmem
          · exact ih1 hmem
        · simpa [producerRun, countFetchErrorLogs_map_push] using ih2
      | fetchErr m =>
        refine ⟨?_, ?_⟩
        · intro hmem
          rcases List.mem_cons.mp hmem with hmem | hmem
          · exact Event.noConfusion hmem
          · exact ih1 hmem
        · simp [producerRun, countFetchErrorLogs, List.countP_cons,
            countFetchErrors] at ih2 ⊢
          omega

/-- Witness for claim C7 on the sample schedule with two fetch errors and no
cancellation. -/
theorem producer_never_stops_on_fetch_error_witness :
    ProducerStep.cancelled ∉ sampleSteps ∧
      (Event.producerReturn ∉ producerRun sampleSteps ∧
        countFetchErrorLogs (producerRun sampleSteps) =
          countFetchErrors sampleSteps) :=
  ⟨by decide, producer_never_stops_on_fetch_error sampleSteps (by decide)⟩

/-- Claim C8: with a callback configured the consumer trace is exactly one
callback event carrying the handler outcome, followed by the same trace the
consumer produces without a callback: the callback runs exactly once per
message, for successful, failed and timed out outcomes alike, and the
forward and acknowledge decisions are unchanged by its presence. -/
theorem callback_exactly_once_no_control_flow (w : Worker) (res : String)
    (e : Option WErr) (sendResult deleteResult : Option WErr) (msg : Message) :
    processMessage { w with hasCallback := true } (res, e) sendResult
        deleteResult msg =
      Event.callback res e ::
        processMessage { w with hasCallback := false } (res, e) sendResult
          deleteResult msg ∧
      (processMessage { w with hasCallback := true } (res, e) sendResult
          deleteResult msg).countP Event.isCallback = 1 ∧
      (processMessage { w with hasCallback := false } (res, e) sendResult
          deleteResult msg).countP Event.isCallback = 0 := by
  simp only [processMessage_eq]
  cases e <;> by_cases hq : w.queueOutUrl = "" <;>
    cases sendResult <;> cases deleteResult <;>
      simp [hq, Event.isCallback, List.countP_cons]

/-- Claim C9: a nonzero integer Timeout field of t produces a worker whose
timeout is exactly t seconds, that is t times 10^9 nanoseconds, because
NewWorker multiplies the integer field by time.Second. -/
theorem newWorker_timeout_seconds (numCPU : Int) (wc : WorkerConfig)
    (h : wc.timeout ≠ 0) :
    (NewWorker numCPU wc).timeout = wc.timeout * 1000000000 := by
  simp [NewWorker, second, h]

/-- Witness for claim C9 at the sample configuration with Timeout seven. -/
theorem newWorker_timeout_seconds_witness :
    sampleConfig7.timeout ≠ 0 ∧
      (NewWorker 4 sampleConfig7).timeout = sampleConfig7.timeout * 1000000000 :=
  ⟨by decide, newWorker_timeout_seconds 4 sampleConfig7 (by decide)⟩

/-- Push events of one batch count exactly the batch length. -/
theorem countP_isPush_map (msgs : List Message) :
    (msgs.map Event.push).countP Event.isPush = msgs.length := by
  induction msgs with
  | nil => simp
  | cons m ms ih => simp [List.countP_cons, Event.isPush, ih]

/-- Claim C10: every receive request issued by the producer asks for at most
one message: the built request carries MaxNumberOfMessages one, visibility
timeout sixty and wait time twenty, all compile time constants, and a
successful fetch whose batch respects the requested maximum pushes at most
one message onto the hand off channel. -/
theorem producer_fetch_at_most_one (w : Worker) (msgs : List Message)
    (rest : List ProducerStep)
    (h : (msgs.length : Int) ≤ (producerParams w).maxNumberOfMessages) :
    (producerParams w).maxNumberOfMessages = 1 ∧
      (producerParams w).visibilityTimeout = 60 ∧
      (producerParams w).waitTimeSeconds = 20 ∧
      (producerRun (ProducerStep.fetch (FetchResult.ok msgs) :: rest)).countP
          Event.isPush ≤
        1 + (producerRun rest).countP Event.isPush := by
  refine ⟨rfl, rfl, rfl, ?_⟩
  have hm : msgs.length ≤ 1 := by
    simp [producerParams, MaxNumberOfMessages] at h
    exact_mod_cast h
  have hrun : producerRun (ProducerStep.fetch (FetchResult.ok msgs) :: rest) =
      msgs.map Event.push ++ producerRun rest := rfl
  rw [hrun, List.countP_append, countP_isPush_map]
  omega

/-- Witness for claim C10 with a one message batch on the sample worker. -/
theorem producer_fetch_at_most_one_witness :
    (([sampleMessage].length : Int) ≤
        (producerParams sampleWorker).maxNumberOfMessages) ∧
      ((producerParams sampleWorker).maxNumberOfMessages = 1 ∧
        (producerParams sampleWorker).visibilityTimeout = 60 ∧
        (producerParams sampleWorker).waitTimeSeconds = 20 ∧
        (producerRun (ProducerStep.fetch (FetchResult.ok [sampleMessage]) ::
            [])).countP Event.isPush ≤
          1 + (producerRun []).countP Event.isPush) :=
  ⟨by decide, producer_fetch_at_most_one sampleWorker [sampleMessage] []
    (by decide)⟩

end Sqsworker
